import Mathlib

/-!
Verification of the single-endpoint HTTP service in `src/main.py`.

The source registers one route, `GET /`, whose (async) handler returns the
constant dictionary `{"status": "Gemini is active"}`:

    app = FastAPI()

    @app.get("/")
    async def root():
        return {"status": "Gemini is active"}

We embed the Python values the program manipulates (the returned dict), the
handler itself, the coroutine structure of the `async def` declaration, and
the request-dispatch behaviour of the hosting framework against the app's
route table (200 on a matched route, 405 when only the path matches, 404
otherwise, as the specification describes the framework defaults).  Fresh
allocation of the dict literal on each call is modelled with an explicit
heap.
-/

/-- HTTP methods relevant to the service. -/
inductive Method where
  | GET
  | POST
  | PUT
  | DELETE
  | PATCH
  | OPTIONS
deriving DecidableEq, BEq, Repr

/-- An inbound HTTP request: method, path, query string, headers, body. -/
structure Request where
  method : Method
  path : String
  query : String
  headers : List (String × String)
  body : String
deriving DecidableEq, Repr

/-- Python values appearing in this program (only strings occur). -/
inductive PyValue where
  | str : String → PyValue
deriving DecidableEq, BEq, Repr

/-- A Python dictionary with string keys, as an association list. -/
def PyDict : Type := List (String × PyValue)

instance : DecidableEq PyDict := by
  unfold PyDict
  infer_instance

/-- The value of the dict display in the body of `root`:
`{"status": "Gemini is active"}` (`src/main.py` line 8). -/
def rootDict : PyDict := [("status", PyValue.str "Gemini is active")]

/-- A coroutine that may suspend a number of times before producing a value;
models the object produced by calling a Python `async def` function. -/
inductive Coroutine (α : Type) where
  | done : α → Coroutine α
  | suspend : Coroutine α → Coroutine α
deriving DecidableEq

/-- Drive a coroutine to completion (what the hosting event loop does). -/
def Coroutine.run {α : Type} : Coroutine α → α
  | .done a => a
  | .suspend k => k.run

/-- Number of suspension points a coroutine passes through (`await`s). -/
def Coroutine.suspensions {α : Type} : Coroutine α → Nat
  | .done _ => 0
  | .suspend k => k.suspensions + 1

/-- The handler `root` (`src/main.py` lines 7-8): an `async def` with no
`await`, so the coroutine completes immediately with the constant dict. -/
def root : Coroutine PyDict := Coroutine.done rootDict

/-- Calling the handler and catching exceptions, as the framework's
exception middleware does.  The body of `root` is a single dict display
with constant keys and values, which cannot raise, so the call always
evaluates to `Except.ok`. -/
def callRoot : Except String PyDict := Except.ok root.run

/-- An HTTP response: status code, content type, JSON body as a dict. -/
structure Response where
  status : Nat
  contentType : String
  body : PyDict
deriving DecidableEq

/-- The application state: its route table.  `app = FastAPI()` followed by
the `@app.get("/")` decorator (`src/main.py` lines 3 and 6) registers the
single route `(GET, "/")`.  Nothing in the program ever mutates it. -/
structure AppState where
  routes : List (Method × String)
deriving DecidableEq

/-- The app as constructed in `src/main.py`. -/
def app : AppState := { routes := [(Method.GET, "/")] }

/-- Does a route's path match the request path? -/
def matchesPath (route : Method × String) (req : Request) : Bool :=
  decide (route.2 = req.path)

/-- Does a route match the request's method and path? -/
def matchesFull (route : Method × String) (req : Request) : Bool :=
  decide (route.1 = req.method) && decide (route.2 = req.path)

/-- Framework default response for an unknown path. -/
def notFoundResponse : Response :=
  { status := 404, contentType := "application/json",
    body := [("detail", PyValue.str "Not Found")] }

/-- Framework default response for a known path with an unregistered
method. -/
def methodNotAllowedResponse : Response :=
  { status := 405, contentType := "application/json",
    body := [("detail", PyValue.str "Method Not Allowed")] }

/-- Framework response when a handler raises. -/
def internalErrorResponse : Response :=
  { status := 500, contentType := "application/json",
    body := [("detail", PyValue.str "Internal Server Error")] }

/-- Run the matched route's handler (the app's only handler is `root`) and
serialize its dict as a JSON response; a raising handler would yield 500. -/
def runRoute : Response :=
  match callRoot with
  | Except.ok d => { status := 200, contentType := "application/json", body := d }
  | Except.error _ => internalErrorResponse

/-- Dispatch a request against the app's route table, as the hosting
framework does: a full (method, path) match runs the handler; a path-only
match yields 405; no match yields 404. -/
def handleRequest (s : AppState) (req : Request) : Response :=
  match s.routes.find? (fun route => matchesFull route req) with
  | some _ => runRoute
  | none =>
    if s.routes.any (fun route => matchesPath route req) then
      methodNotAllowedResponse
    else
      notFoundResponse

/-- One request-response step of the running service: produce the response
and the (unchanged) app state. -/
def step (s : AppState) (req : Request) : Response × AppState :=
  (handleRequest s req, s)

/-- Serve a sequence of requests, threading the app state through.  Each
request is handled in a single atomic pure step, so any concurrent
interleaving of requests is one of these sequential orders. -/
def serve : AppState → List Request → List Response × AppState
  | s, [] => ([], s)
  | s, r :: rs =>
    let p := step s r
    let q := serve p.2 rs
    (p.1 :: q.1, q.2)

/-- The 200 response produced for `GET /`. -/
def rootOkResponse : Response :=
  { status := 200, contentType := "application/json", body := rootDict }

/-- A heap of Python dict objects: the next fresh address and a store.
Models CPython's allocation of a new dict object for each evaluation of a
dict display. -/
structure Heap where
  next : Nat
  store : List (Nat × PyDict)
deriving DecidableEq

/-- Allocate a fresh dict object on the heap. -/
def Heap.alloc (h : Heap) (d : PyDict) : Nat × Heap :=
  (h.next, { next := h.next + 1, store := (h.next, d) :: h.store })

/-- Look up a dict object by address. -/
def Heap.lookup (h : Heap) (a : Nat) : Option PyDict :=
  (h.store.find? (fun p => p.1 == a)).map Prod.snd

/-- One invocation of `root` at the object level: evaluating the dict
display `{"status": "Gemini is active"}` allocates a fresh dict object and
returns its address. -/
def rootInvoke (h : Heap) : Nat × Heap :=
  h.alloc rootDict

/-- Modelled from the spec: the repository contains no startup or
socket-binding code under `src/` (no `__main__` block, no server
invocation), so startup is modelled from the spec's propagation policy:
`BindFailure` (port in use or permission denied) is fatal, the process
exits with a non-zero status and a human-readable message, with no retry;
a successful bind leaves the service running. -/
inductive BindResult where
  | ok
  | portInUse
  | permissionDenied
deriving DecidableEq

/-- Modelled from the spec: the process outcome of startup — either the
service is running, or the process exited with a status code and a
message. -/
inductive StartOutcome where
  | running
  | exited (code : Nat) (message : String)
deriving DecidableEq

/-- Modelled from the spec: startup attempts to bind the listening socket
exactly once; failure is fatal with a non-zero exit status and a
human-readable message, success leaves the service running. -/
def startup : BindResult → StartOutcome
  | BindResult.ok => StartOutcome.running
  | BindResult.portInUse =>
      StartOutcome.exited 1 "error: failed to bind listening socket: address already in use"
  | BindResult.permissionDenied =>
      StartOutcome.exited 1 "error: failed to bind listening socket: permission denied"

/-- Modelled from the spec: the number of bind attempts startup makes on
each outcome — exactly one, no retry. -/
def startupBindAttempts : BindResult → Nat := fun _ => 1

/-- Spec-side definition for the refinement claim, following the spec's
words: a plain synchronous function that returns the constant
`{"status": "Gemini is active"}`. -/
def rootSyncSpec : Unit → PyDict :=
  fun _ => [("status", PyValue.str "Gemini is active")]

/-- A concrete `GET /` request. -/
def sampleGetRoot : Request :=
  { method := Method.GET, path := "/", query := "", headers := [], body := "" }

/-- A second, different concrete `GET /` request (query, headers, body). -/
def sampleGetRootNoisy : Request :=
  { method := Method.GET, path := "/", query := "a=1&b=2",
    headers := [("X-Test", "yes"), ("Accept", "text/html")], body := "ignored" }

/-- A concrete `POST /` request. -/
def samplePostRoot : Request :=
  { method := Method.POST, path := "/", query := "", headers := [], body := "{}" }

/-- A concrete `GET /nonexistent` request. -/
def sampleGetMissing : Request :=
  { method := Method.GET, path := "/nonexistent", query := "", headers := [], body := "" }

/- ------------------------------------------------------------------ -/
/- Helper lemmas -/

/-- Dispatching any request whose method is GET and whose path is `/`
against the app's route table produces the constant 200 response. -/
lemma handleRequest_get_root (req : Request)
    (hm : req.method = Method.GET) (hp : req.path = "/") :
    handleRequest app req = rootOkResponse := by
  obtain ⟨m, p, q, hh, b⟩ := req
  have hm2 : m = Method.GET := hm
  have hp2 : p = "/" := hp
  subst hm2
  subst hp2
  rfl

/-- Dispatching a non-GET request to `/` yields the 405 default. -/
lemma handleRequest_nonget_root (req : Request)
    (hm : req.method ≠ Method.GET) (hp : req.path = "/") :
    handleRequest app req = methodNotAllowedResponse := by
  obtain ⟨m, p, q, hh, b⟩ := req
  have hm2 : m ≠ Method.GET := hm
  have hp2 : p = "/" := hp
  subst hp2
  cases m with
  | GET => exact absurd rfl hm2
  | POST => rfl
  | PUT => rfl
  | DELETE => rfl
  | PATCH => rfl
  | OPTIONS => rfl

/-- Dispatching a request to a path other than `/` yields the 404 default. -/
lemma handleRequest_missing (req : Request) (hp : req.path ≠ "/") :
    handleRequest app req = notFoundResponse := by
  have hp2 : ("/" = req.path) = False := by
    simp only [eq_iff_iff, iff_false]
    exact fun h => hp h.symm
  simp [handleRequest, app, matchesFull, matchesPath, hp2]

/-- `serve` is the pointwise map of `handleRequest` and leaves the state
unchanged. -/
lemma serve_eq_map (s : AppState) (reqs : List Request) :
    serve s reqs = (reqs.map (handleRequest s), s) := by
  induction reqs with
  | nil => simp [serve]
  | cons r rs ih => simp [serve, step, ih]

/- ------------------------------------------------------------------ -/
/- Claim theorems -/

/-- C1: every GET request to `/`, whatever its headers, query string or
body, receives status 200 with body exactly the JSON object
`{"status": "Gemini is active"}`. -/
theorem c1_get_root_ok (req : Request)
    (hm : req.method = Method.GET) (hp : req.path = "/") :
    (handleRequest app req).status = 200 ∧
    (handleRequest app req).body = [("status", PyValue.str "Gemini is active")] := by
  rw [handleRequest_get_root req hm hp]
  exact ⟨rfl, rfl⟩

/-- C1 witness: a concrete noisy GET `/` request gets the 200 response. -/
theorem c1_witness :
    (handleRequest app sampleGetRootNoisy).status = 200 ∧
    (handleRequest app sampleGetRootNoisy).body =
      [("status", PyValue.str "Gemini is active")] :=
  c1_get_root_ok sampleGetRootNoisy rfl rfl

/-- C2: the root handler is deterministic and side-effect-free — any two
GET `/` requests get equal responses, and a step on any request leaves the
app state unchanged. -/
theorem c2_deterministic_pure (r1 r2 : Request)
    (hm1 : r1.method = Method.GET) (hp1 : r1.path = "/")
    (hm2 : r2.method = Method.GET) (hp2 : r2.path = "/") :
    handleRequest app r1 = handleRequest app r2 ∧
    ∀ r : Request, (step app r).2 = app := by
  refine ⟨?_, fun r => rfl⟩
  rw [handleRequest_get_root r1 hm1 hp1, handleRequest_get_root r2 hm2 hp2]

/-- C2 witness: two concrete distinct GET `/` requests get equal responses
and the state is unchanged on a concrete request. -/
theorem c2_witness :
    handleRequest app sampleGetRoot = handleRequest app sampleGetRootNoisy ∧
    ∀ r : Request, (step app r).2 = app :=
  c2_deterministic_pure sampleGetRoot sampleGetRootNoisy rfl rfl rfl rfl

/-- C3: every GET request to `/` is answered with content type
`application/json`, as in the route table. -/
theorem c3_content_type (req : Request)
    (hm : req.method = Method.GET) (hp : req.path = "/") :
    (handleRequest app req).contentType = "application/json" := by
  rw [handleRequest_get_root req hm hp]
  rfl

/-- C3 witness: the concrete GET `/` request gets a JSON content type. -/
theorem c3_witness :
    (handleRequest app sampleGetRoot).contentType = "application/json" :=
  c3_content_type sampleGetRoot rfl rfl

/-- C4: any non-GET method sent to `/` receives the framework's 405
method-not-allowed response (hence not 200); dispatch is total (no crash),
the state is unchanged, and any later GET `/` still gets 200. -/
theorem c4_nonget_root (req : Request)
    (hm : req.method ≠ Method.GET) (hp : req.path = "/") :
    (handleRequest app req).status = 405 ∧
    (handleRequest app req).status ≠ 200 ∧
    (step app req).2 = app ∧
    ∀ req2 : Request, req2.method = Method.GET → req2.path = "/" →
      (handleRequest (step app req).2 req2).status = 200 := by
  rw [handleRequest_nonget_root req hm hp]
  refine ⟨rfl, by decide, rfl, fun req2 hm2 hp2 => ?_⟩
  have hs : (step app req).2 = app := rfl
  rw [hs, handleRequest_get_root req2 hm2 hp2]
  rfl

/-- C4 witness: a concrete POST `/` request gets 405 and service goes on. -/
theorem c4_witness :
    (handleRequest app samplePostRoot).status = 405 ∧
    (handleRequest app samplePostRoot).status ≠ 200 ∧
    (step app samplePostRoot).2 = app ∧
    ∀ req2 : Request, req2.method = Method.GET → req2.path = "/" →
      (handleRequest (step app samplePostRoot).2 req2).status = 200 :=
  c4_nonget_root samplePostRoot (by decide) rfl

/-- C5: any request to a path other than `/` receives the framework's 404
not-found response (hence not 200), the state is unchanged, and any later
GET `/` still gets 200. -/
theorem c5_unknown_path (req : Request) (hp : req.path ≠ "/") :
    (handleRequest app req).status = 404 ∧
    (handleRequest app req).status ≠ 200 ∧
    (step app req).2 = app ∧
    ∀ req2 : Request, req2.method = Method.GET → req2.path = "/" →
      (handleRequest (step app req).2 req2).status = 200 := by
  rw [handleRequest_missing req hp]
  refine ⟨rfl, by decide, rfl, fun req2 hm2 hp2 => ?_⟩
  have hs : (step app req).2 = app := rfl
  rw [hs, handleRequest_get_root req2 hm2 hp2]
  rfl

/-- C5 witness: a concrete GET `/nonexistent` gets 404 and service goes
on. -/
theorem c5_witness :
    (handleRequest app sampleGetMissing).status = 404 ∧
    (handleRequest app sampleGetMissing).status ≠ 200 ∧
    (step app sampleGetMissing).2 = app ∧
    ∀ req2 : Request, req2.method = Method.GET → req2.path = "/" →
      (handleRequest (step app sampleGetMissing).2 req2).status = 200 :=
  c5_unknown_path sampleGetMissing (by decide)

/-- C6: on any bind failure, startup exits with a non-zero status and a
non-empty human-readable message, after exactly one bind attempt (no
retry). -/
theorem c6_bind_failure_fatal (b : BindResult) (hb : b ≠ BindResult.ok) :
    (∃ code msg, startup b = StartOutcome.exited code msg ∧
      code ≠ 0 ∧ msg ≠ "") ∧
    startupBindAttempts b = 1 := by
  cases b with
  | ok => exact absurd rfl hb
  | portInUse =>
    exact ⟨⟨1, "error: failed to bind listening socket: address already in use",
      rfl, by decide, by decide⟩, rfl⟩
  | permissionDenied =>
    exact ⟨⟨1, "error: failed to bind listening socket: permission denied",
      rfl, by decide, by decide⟩, rfl⟩

/-- C6 witness: a port-in-use bind failure exits non-zero with a message. -/
theorem c6_witness :
    (∃ code msg, startup BindResult.portInUse = StartOutcome.exited code msg ∧
      code ≠ 0 ∧ msg ≠ "") ∧
    startupBindAttempts BindResult.portInUse = 1 :=
  c6_bind_failure_fatal BindResult.portInUse (by decide)

/-- C7: the root handler never raises: its call always evaluates to
`Except.ok`, so the framework's error branch (500) is unreachable for every
request dispatched against the app. -/
theorem c7_handler_never_fails :
    (∀ e : String, callRoot ≠ Except.error e) ∧
    (∃ d : PyDict, callRoot = Except.ok d) ∧
    ∀ req : Request, (handleRequest app req).status ≠ 500 := by
  refine ⟨fun e h => by simp [callRoot] at h, ⟨root.run, rfl⟩, fun req => ?_⟩
  by_cases hp : req.path = "/"
  · by_cases hm : req.method = Method.GET
    · rw [handleRequest_get_root req hm hp]; decide
    · rw [handleRequest_nonget_root req hm hp]; decide
  · rw [handleRequest_missing req hp]; decide

/-- C9: the `async` declaration of `root` has no behavioural consequence:
the coroutine has zero suspension points and running it equals the plain
synchronous constant function the spec describes. -/
theorem c9_async_no_consequence :
    root.suspensions = 0 ∧
    root.run = rootSyncSpec () ∧
    root = Coroutine.done (rootSyncSpec ()) :=
  ⟨rfl, rfl, rfl⟩

/-- C8: N requests are served as N independent atomic pure steps — every
response is a function of its own request only, the app state is unchanged
(no shared mutable state), and when all N requests are GET `/` the
responses are N copies of the identical 200 response. -/
theorem c8_concurrent_independent (s : AppState) (reqs : List Request) :
    (serve s reqs).1 = reqs.map (handleRequest s) ∧
    (serve s reqs).2 = s ∧
    ((∀ r ∈ reqs, r.method = Method.GET ∧ r.path = "/") → s = app →
      (serve s reqs).1 = List.replicate reqs.length rootOkResponse) := by
  refine ⟨by rw [serve_eq_map], by rw [serve_eq_map], fun hall hs => ?_⟩
  rw [serve_eq_map]
  subst hs
  simp only []
  induction reqs with
  | nil => rfl
  | cons r rs ih =>
    have hr := hall r (List.mem_cons_self r rs)
    simp only [List.map_cons, List.length_cons, List.replicate_succ]
    rw [handleRequest_get_root r hr.1 hr.2]
    rw [ih (fun x hx => hall x (List.mem_cons_of_mem r hx))]

/-- C8 witness: two concrete GET `/` requests yield two identical 200
responses and an unchanged state. -/
theorem c8_witness :
    (serve app [sampleGetRoot, sampleGetRootNoisy]).1 =
      List.replicate 2 rootOkResponse ∧
    (serve app [sampleGetRoot, sampleGetRootNoisy]).2 = app :=
  ⟨(c8_concurrent_independent app [sampleGetRoot, sampleGetRootNoisy]).2.2
      (by intro r hr; fin_cases hr <;> exact ⟨rfl, rfl⟩) rfl,
    (c8_concurrent_independent app [sampleGetRoot, sampleGetRootNoisy]).2.1⟩

/-- C10: every invocation of `root` allocates a fresh dict object — the
returned address is the heap's next fresh one, it maps to the one-entry
dict `{"status": "Gemini is active"}` independently of the prior heap, and
two successive invocations never return the same object. -/
theorem c10_fresh_dict (h : Heap) :
    (rootInvoke h).1 = h.next ∧
    (rootInvoke h).2.next = h.next + 1 ∧
    (rootInvoke h).2.lookup (rootInvoke h).1 = some rootDict ∧
    rootDict = [("status", PyValue.str "Gemini is active")] ∧
    rootDict.length = 1 ∧
    (rootInvoke (rootInvoke h).2).1 ≠ (rootInvoke h).1 :=
  ⟨rfl, rfl, by simp [rootInvoke, Heap.alloc, Heap.lookup], rfl, rfl,
    by simp [rootInvoke, Heap.alloc]⟩
